import Mathlib

/-!
Shallow embedding of the climate-data-viz backend core: the tabular data
loader (`app/services/data_loader.py`, `app/domains/shared/data_service.py`),
the monthly/annual aggregation services (`app/services/analytics.py`,
`app/domains/climate_data/service.py`), the summary analytics service
(`app/domains/analytics/service.py`), and the standalone TDD utilities
`compute_annual_mean` / `compute_annual_std`.

Numbers are modelled as exact rationals (`ℚ`).  The one operation of the
source that leaves the rationals is the numeric square root used by the
standard-deviation computations (`pandas` `std`, Python `** 0.5`); it is
modelled as an explicit function parameter `sqrtFn : ℚ → ℚ`, so that every
theorem that does not depend on square-root values holds for all `sqrtFn`,
and concrete evaluations instantiate `sqrtFn` with `ratSqrt`, which is exact
whenever the radicand is a perfect square of a rational (all concrete inputs
used below are chosen so that the radicand is such a perfect square, making
the evaluation agree exactly with the numeric code).
-/

namespace ClimateViz

/-- Python's `round(x, 2)` half-to-even integer rounding step:
round a rational to the nearest integer, ties to the even integer. -/
def roundHalfEven (q : ℚ) : ℤ :=
  let f : ℤ := ⌊q⌋
  let r : ℚ := q - f
  if r < 1/2 then f
  else if r > 1/2 then f + 1
  else if f % 2 = 0 then f else f + 1

/-- Python's `round(x, 2)`: round to 2 decimal places, ties to even. -/
def round2 (q : ℚ) : ℚ := (roundHalfEven (q * 100) : ℚ) / 100

/-- Numeric square root on rationals: exact whenever the argument is the
square of a rational (then numerator and denominator of the reduced form are
perfect squares); used to instantiate the abstract `sqrtFn` parameter at
concrete inputs. -/
def ratSqrt (q : ℚ) : ℚ := (Nat.sqrt q.num.toNat : ℚ) / (Nat.sqrt q.den : ℚ)

/-- One long-format record of the in-memory table: columns
`[station_id, station_name, year, month, temperature]`, with `temperature`
nullable (`none` models `NaN`). -/
structure Reading where
  station_id : String
  station_name : String
  year : ℤ
  month : ℤ
  temperature : Option ℚ
  deriving Repr, DecidableEq

/-- Decidable equality for `Except`, for concrete evaluation of fallible
results. -/
instance {e a : Type} [DecidableEq e] [DecidableEq a] : DecidableEq (Except e a) := fun x y =>
  match x, y with
  | .ok u, .ok v => decidable_of_iff (u = v) (by constructor <;> (intro h; first | exact congrArg _ h | injection h))
  | .error u, .error v => decidable_of_iff (u = v) (by constructor <;> (intro h; first | exact congrArg _ h | injection h))
  | .ok _, .error _ => isFalse (by intro h; injection h)
  | .error _, .ok _ => isFalse (by intro h; injection h)

/-- `compute_annual_mean` (`app/services/analytics.py`,
`app/domains/analytics/service.py`): mean of the non-null values; raises
`ValueError` when there is no valid value. -/
def compute_annual_mean (temperatures : List (Option ℚ)) : Except String ℚ :=
  let valid_temps := temperatures.filterMap id
  if valid_temps.isEmpty then
    .error "No valid temperature values to compute mean"
  else
    .ok (valid_temps.sum / (valid_temps.length : ℚ))

/-- `compute_annual_std` (`app/services/analytics.py`,
`app/domains/analytics/service.py`): population standard deviation
(divide by N) of the non-null values; raises `ValueError` when fewer than 2
valid values exist.  `variance ** 0.5` is the abstract `sqrtFn`. -/
def compute_annual_std (sqrtFn : ℚ → ℚ) (temperatures : List (Option ℚ)) :
    Except String ℚ :=
  let valid_temps := temperatures.filterMap id
  if valid_temps.length < 2 then
    .error "Need at least 2 values to compute std"
  else
    let mean := valid_temps.sum / (valid_temps.length : ℚ)
    let variance := ((valid_temps.map (fun t => (t - mean) ^ 2)).sum) / (valid_temps.length : ℚ)
    .ok (sqrtFn variance)

end ClimateViz


namespace ClimateViz

/-! ## Tabular store: loading (`DataService.load_data`) -/

/-- The twelve month columns, in calendar order (`month_cols` in
`load_data`). -/
def month_cols : List String :=
  ["Jan", "Feb", "Mar", "Apr", "May", "Jun", "Jul", "Aug", "Sep", "Oct", "Nov", "Dec"]

/-- The required non-month columns (`required_cols` in `load_data`). -/
def required_cols : List String := ["Station Number", "Year"]

/-- A Python exception other than `DataLoadError` that can escape the
conversion steps of `load_data` (e.g. the `ValueError` that
`astype(int)` raises on a non-integer `Year` cell). -/
inductive PyExc where
  | valueError (msg : String)
  deriving Repr, DecidableEq

/-- `DataLoadError`, with the message's payload carried structurally:
`missingColumns` is the explicitly raised schema-mismatch error (message
`"CSV missing required columns: {missing}. Found columns: {found}"`), and
`parseFailure` is the wrapping error `"Failed to parse CSV file: {e}"`
raised `from e`, with the original exception preserved as its cause. -/
inductive DataLoadError where
  | missingColumns (missing : List String) (found : List String)
  | parseFailure (cause : PyExc)
  deriving Repr, DecidableEq

/-- An exception escaping the `try` body of `load_data`: either an
explicitly raised `DataLoadError` or some other exception. -/
inductive BodyExc where
  | dle (e : DataLoadError)
  | pyexc (e : PyExc)
  deriving Repr, DecidableEq

/-- The wide-format table as produced by `pd.read_csv(path, sep=";")`:
a header (column names) and rows of raw cells, each row aligned with the
header. -/
structure WideTable where
  columns : List String
  rows : List (List String)
  deriving Repr, DecidableEq

/-- Cell of a row under a named column (dataframe column access). -/
def WideTable.cell (t : WideTable) (row : List String) (name : String) : String :=
  match t.columns.indexOf? name with
  | some i => row.getD i ""
  | none => ""

/-- Digit value of a character, `none` for a non-digit. -/
def digitVal (c : Char) : Option ℕ :=
  if '0' ≤ c ∧ c ≤ '9' then some (c.toNat - '0'.toNat) else none

/-- Parse a non-empty all-digit character run as a natural number
(accumulator starts empty, so `[]` and any non-digit yield `none`). -/
def natOfChars : List Char → Option ℕ → Option ℕ
  | [], acc => acc
  | c :: cs, acc =>
    match digitVal c, acc with
    | some d, some a => natOfChars cs (some (a * 10 + d))
    | some d, none => natOfChars cs (some d)
    | none, _ => none

/-- Parse an optionally `-`-signed digit run as an integer. -/
def intOfChars (cs : List Char) : Option ℤ :=
  match cs with
  | '-' :: rest => (natOfChars rest none).map (fun n => -(n : ℤ))
  | _ => (natOfChars cs none).map (fun n => (n : ℤ))

/-- Split a character list at every `'.'`. -/
def splitDot : List Char → List (List Char)
  | [] => [[]]
  | '.' :: rest => [] :: splitDot rest
  | c :: rest =>
    match splitDot rest with
    | [] => [[c]]
    | p :: ps => (c :: p) :: ps

/-- `pd.to_numeric(cell, errors="coerce")` on a raw cell: parse a decimal
literal (optional sign, optional fractional part) as an exact rational;
any non-numeric cell (incl. the `"null"` marker) coerces to `NaN`
(`none`), never an error. -/
def parseFloatQ (s : String) : Option ℚ :=
  match splitDot s.data with
  | [w] => (intOfChars w).map (fun n => (n : ℚ))
  | [w, f] =>
    match intOfChars w, natOfChars f none with
    | some n, some fr =>
      let sign : ℚ := if w.head? = some '-' then -1 else 1
      some ((n : ℚ) + sign * (fr : ℚ) / ((10 ^ f.length : ℕ) : ℚ))
    | _, _ => none
  | _ => none

/-- `df["year"].astype(int)` on one raw cell: an integer literal converts,
anything else raises `ValueError`. -/
def parseYearInt (s : String) : Except BodyExc ℤ :=
  match intOfChars s.data with
  | some y => .ok y
  | none => .error (.pyexc (.valueError
      ("invalid literal for int() with base 10: " ++ s)))

/-- Strict lexicographic comparison of character lists by code point
(how Python compares the `str`-typed station ids). -/
def charsLt : List Char → List Char → Bool
  | [], [] => false
  | [], _ :: _ => true
  | _ :: _, [] => false
  | a :: as, b :: bs =>
    if a.toNat < b.toNat then true
    else if b.toNat < a.toNat then false
    else charsLt as bs

/-- Strict string comparison by code-point lexicographic order. -/
def strLt (x y : String) : Bool := charsLt x.data y.data

/-- The sort relation of `load_data`'s final
`df.sort_values(["station_id", "year", "month"])`: lexicographic
`(station_id, year, month)` with the station id compared as a string. -/
def keyLE (a b : Reading) : Prop :=
  strLt a.station_id b.station_id = true
  ∨ (a.station_id = b.station_id
     ∧ (a.year < b.year ∨ (a.year = b.year ∧ a.month ≤ b.month)))

instance : DecidableRel keyLE := fun a b =>
  inferInstanceAs (Decidable (strLt a.station_id b.station_id = true
    ∨ (a.station_id = b.station_id
       ∧ (a.year < b.year ∨ (a.year = b.year ∧ a.month ≤ b.month)))))

/-- The `try` body of `load_data`, after `pd.read_csv` has produced the
wide table: validate the schema, melt to long format (one Reading per
month column per row, stacked column by column in calendar order), derive
the station name (`"Station " + station_id`, the empty `STATION_NAMES`
mapping supplying no real names), coerce temperatures, convert years to
int (the one conversion that can raise a non-`DataLoadError` exception),
and sort by `(station_id, year, month)`. -/
def load_body (t : WideTable) : Except BodyExc (List Reading) :=
  let missing := (required_cols ++ month_cols).filter (fun c => ¬ t.columns.contains c)
  if ¬ missing.isEmpty then
    .error (.dle (.missingColumns missing t.columns))
  else
    let longRows := (month_cols.enum).flatMap (fun mj =>
      t.rows.map (fun row =>
        (t.cell row "Station Number", t.cell row "Year", (mj.1 + 1 : ℤ),
          parseFloatQ (t.cell row mj.2))))
    match longRows.mapM (fun c =>
        (match parseYearInt c.2.1 with
        | .error e => .error e
        | .ok y => .ok { station_id := c.1
                         station_name := "Station " ++ c.1
                         year := y
                         month := c.2.2.1
                         temperature := c.2.2.2 : Reading } :
          Except BodyExc Reading)) with
    | .error e => (.error e : Except BodyExc (List Reading))
    | .ok readings => .ok (readings.insertionSort keyLE)

/-- `DataService.load_data`'s exception handling around the body:
an explicitly raised `DataLoadError` passes through unwrapped
(`except DataLoadError: raise`); any other exception `e` is re-raised as
`DataLoadError(f"Failed to parse CSV file: {e}") from e`
(`except Exception as e: ...`). -/
def load_data (t : WideTable) : Except DataLoadError (List Reading) :=
  match load_body t with
  | .ok rs => .ok rs
  | .error (.dle e) => .error e
  | .error (.pyexc e) => .error (.parseFailure e)

/-! ## Tabular store: filtered reads (`DataService.get_data`) -/

/-- `if station_ids: df = df[df["station_id"].isin(station_ids)]` — the
station filter, skipped for a falsy (empty) list. -/
def filterStations (station_ids : List String) (df : List Reading) : List Reading :=
  if station_ids.isEmpty then df
  else df.filter (fun r => station_ids.contains r.station_id)

/-- `if year_from: df = df[df["year"] >= year_from]` — the lower year
bound, inclusive, skipped for a falsy (absent or zero) bound. -/
def filterYearFrom (year_from : Option ℤ) (df : List Reading) : List Reading :=
  match year_from with
  | none => df
  | some yf => if yf = 0 then df else df.filter (fun r => yf ≤ r.year)

/-- `if year_to: df = df[df["year"] <= year_to]` — the upper year bound,
inclusive, skipped for a falsy (absent or zero) bound. -/
def filterYearTo (year_to : Option ℤ) (df : List Reading) : List Reading :=
  match year_to with
  | none => df
  | some yt => if yt = 0 then df else df.filter (fun r => r.year ≤ yt)

/-- `DataService.get_data`: filter the stored long table by station-id
membership and inclusive year bounds, in the source's order of
application.  Python truthiness is preserved: an empty `station_ids` list
and an absent-or-zero year bound apply no filter. -/
def get_data (store : List Reading) (station_ids : List String)
    (year_from year_to : Option ℤ) : List Reading :=
  filterYearTo year_to (filterYearFrom year_from (filterStations station_ids store))

/-! ## Monthly projection (`get_monthly_data`, identical in
`AnalyticsService` and `ClimateDataService`) -/

/-- `MonthlyDataPoint` schema. -/
structure MonthlyDataPoint where
  year : ℤ
  month : ℤ
  temperature : Option ℚ
  deriving Repr, DecidableEq

/-- `StationMonthlyData` schema. -/
structure StationMonthlyData where
  station_id : String
  station_name : String
  data : List MonthlyDataPoint
  deriving Repr, DecidableEq

/-- `MonthlyDataResponse` schema. -/
structure MonthlyDataResponse where
  stations : List StationMonthlyData
  total_points : ℕ
  deriving Repr, DecidableEq

/-- One iteration of the `for station_id in station_ids` loop of
`get_monthly_data`: the station's filtered frame, skipped when empty
(`continue`), otherwise a record named after the first matching row with
one data point per Reading in stored order. -/
def monthlyRecord (df : List Reading) (sid : String) : Option StationMonthlyData :=
  match df.filter (fun r => r.station_id == sid) with
  | [] => none
  | r0 :: rest => some
    { station_id := sid
      station_name := r0.station_name
      data := (r0 :: rest).map (fun r => ⟨r.year, r.month, r.temperature⟩) }

/-- `get_monthly_data`: one record per requested station id in
caller-supplied order (duplicates included), empty stations skipped;
`total_points` accumulates each included record's point count. -/
def get_monthly_data (store : List Reading) (station_ids : List String)
    (year_from year_to : Option ℤ) : MonthlyDataResponse :=
  let df := get_data store station_ids year_from year_to
  let recs := station_ids.filterMap (monthlyRecord df)
  { stations := recs, total_points := (recs.map (·.data.length)).sum }

end ClimateViz

namespace ClimateViz

/-! ## Annual aggregator (`get_annual_data`, identical in
`AnalyticsService` and `ClimateDataService`) -/

/-- `AnnualDataPoint` schema. -/
structure AnnualDataPoint where
  year : ℤ
  mean : ℚ
  std : ℚ
  min_temp : ℚ
  max_temp : ℚ
  upper_bound : ℚ
  lower_bound : ℚ
  deriving Repr, DecidableEq

/-- `StationAnnualData` schema. -/
structure StationAnnualData where
  station_id : String
  station_name : String
  data : List AnnualDataPoint
  deriving Repr, DecidableEq

/-- `AnnualDataResponse` schema. -/
structure AnnualDataResponse where
  stations : List StationAnnualData
  total_years : ℕ
  deriving Repr, DecidableEq

/-- The non-null temperatures of a frame (`Series.dropna`; the aggregation
functions of `pandas` skip `NaN`). -/
def nonNullTemps (g : List Reading) : List ℚ := g.filterMap (·.temperature)

/-- `pandas` `mean` of a column: `NaN` (`none`) when no non-null value
exists, else the arithmetic mean of the non-null values. -/
def aggMean (vs : List ℚ) : Option ℚ :=
  if vs.isEmpty then none else some (vs.sum / (vs.length : ℚ))

/-- `pandas` `std` of a column (default `ddof=1`, i.e. the *sample*
standard deviation): `NaN` for fewer than 2 non-null values, else
`sqrt(Σ (v - mean)² / (n - 1))` over the non-null values. -/
def aggStd (sqrtFn : ℚ → ℚ) (vs : List ℚ) : Option ℚ :=
  if vs.length < 2 then none
  else
    let m := vs.sum / (vs.length : ℚ)
    some (sqrtFn (((vs.map (fun v => (v - m) ^ 2)).sum) / ((vs.length : ℚ) - 1)))

/-- The distinct years of a frame, ascending (`groupby("year")` sorts the
group keys in ascending order regardless of row order). -/
def yearKeys (g : List Reading) : List ℤ :=
  (g.map (·.year)).dedup.insertionSort (· ≤ ·)

/-- One row of `yearly_stats` followed by the loop body of
`get_annual_data`: the year's group, its aggregated statistics, the
`NaN`-std fallback to `0.0`, the `continue` on a `NaN` mean (year with no
non-null temperature), the 2-decimal rounding of every numeric output,
and the ±1σ bounds computed from the *unrounded* mean and std
(`round(float(mean_val + std_val), 2)`).  The `else float(mean_val)`
fallbacks for a `NaN` min/max mirror the source; they are unreachable
when the mean is not `NaN`. -/
def annualPointForYear (sqrtFn : ℚ → ℚ) (station_df : List Reading) (y : ℤ) :
    Option AnnualDataPoint :=
  let vs := nonNullTemps (station_df.filter (fun r => r.year == y))
  let std_val := (aggStd sqrtFn vs).getD 0
  match aggMean vs with
  | none => none
  | some mean_val => some
    { year := y
      mean := round2 mean_val
      std := round2 std_val
      min_temp := match vs.min? with | some m => round2 m | none => mean_val
      max_temp := match vs.max? with | some m => round2 m | none => mean_val
      upper_bound := round2 (mean_val + std_val)
      lower_bound := round2 (mean_val - std_val) }

/-- One iteration of the `for station_id in station_ids` loop of
`get_annual_data`: skip a station whose filtered frame is empty, else
group by year and emit the per-year points. -/
def annualRecord (sqrtFn : ℚ → ℚ) (df : List Reading) (sid : String) :
    Option StationAnnualData :=
  match df.filter (fun r => r.station_id == sid) with
  | [] => none
  | r0 :: rest => some
    { station_id := sid
      station_name := r0.station_name
      data := (yearKeys (r0 :: rest)).filterMap
        (annualPointForYear sqrtFn (r0 :: rest)) }

/-- `get_annual_data`: one record per requested station id (empty stations
skipped); `total_years = max(total_years, len(data_points))` folded over
the included stations, starting from 0. -/
def get_annual_data (sqrtFn : ℚ → ℚ) (store : List Reading)
    (station_ids : List String) (year_from year_to : Option ℤ) :
    AnnualDataResponse :=
  let df := get_data store station_ids year_from year_to
  let recs := station_ids.filterMap (annualRecord sqrtFn df)
  { stations := recs, total_years := (recs.map (·.data.length)).foldl max 0 }

/-! ## Summary analytics (`AnalyticsService.get_analytics`,
`app/services/analytics.py`) -/

/-- `StationAnalytics` schema (the `app/api/schemas.py` variant). -/
structure StationAnalytics where
  station_id : String
  station_name : String
  min_temp : ℚ
  max_temp : ℚ
  mean_temp : ℚ
  std_temp : ℚ
  coldest_year : ℤ
  coldest_year_temp : ℚ
  hottest_year : ℤ
  hottest_year_temp : ℚ
  data_coverage : ℚ
  deriving Repr, DecidableEq

/-- `AnalyticsResponse` schema. -/
structure AnalyticsResponse where
  stations : List StationAnalytics
  year_range : ℤ × ℤ
  total_stations : ℕ
  deriving Repr, DecidableEq

/-- Python's `round(x, 1)`: round to 1 decimal place, ties to even. -/
def round1 (q : ℚ) : ℚ := (roundHalfEven (q * 10) : ℚ) / 10

/-- The year→mean series `station_df.groupby("year")["temperature"].mean().dropna()`:
per-year means of the non-null temperatures, years with an all-null group
dropped, keyed ascending. -/
def yearlyMeans (station_df : List Reading) : List (ℤ × ℚ) :=
  (yearKeys station_df).filterMap (fun y =>
    (aggMean (nonNullTemps (station_df.filter (fun r => r.year == y)))).map
      (fun m => (y, m)))

/-- `Series.idxmin` on a year-keyed series: the key of the first entry
holding the minimal value. -/
def idxminQ (l : List (ℤ × ℚ)) : Option (ℤ × ℚ) :=
  l.foldl (fun acc p =>
    match acc with
    | none => some p
    | some q => if p.2 < q.2 then some p else some q) none

/-- `Series.idxmax` on a year-keyed series: the key of the first entry
holding the maximal value. -/
def idxmaxQ (l : List (ℤ × ℚ)) : Option (ℤ × ℚ) :=
  l.foldl (fun acc p =>
    match acc with
    | none => some p
    | some q => if q.2 < p.2 then some p else some q) none

/-- One iteration of the station loop of `get_analytics`: skip a station
with no matching rows, skip one whose non-null temperatures are empty
(`if temps.empty: continue`), skip one with an empty yearly-mean series
(`if yearly_means.empty: continue`); otherwise the overall statistics
(`std` is `pandas` sample std for 2+ values, else `0.0`),
hottest/coldest year by yearly mean (first key wins ties), and the data
coverage percentage rounded to 1 decimal. -/
def analyticsRecord (sqrtFn : ℚ → ℚ) (df : List Reading) (sid : String) :
    Option StationAnalytics :=
  match df.filter (fun r => r.station_id == sid) with
  | [] => none
  | r0 :: rest =>
    let station_df := r0 :: rest
    let temps := nonNullTemps station_df
    if temps.isEmpty then none
    else
      let std_temp := (aggStd sqrtFn temps).getD 0
      match idxminQ (yearlyMeans station_df), idxmaxQ (yearlyMeans station_df) with
      | some cold, some hot => some
        { station_id := sid
          station_name := r0.station_name
          min_temp := round2 ((temps.min?).getD 0)
          max_temp := round2 ((temps.max?).getD 0)
          mean_temp := round2 (temps.sum / (temps.length : ℚ))
          std_temp := round2 std_temp
          coldest_year := cold.1
          coldest_year_temp := round2 cold.2
          hottest_year := hot.1
          hottest_year_temp := round2 hot.2
          data_coverage := round1 ((temps.length : ℚ) / (station_df.length : ℚ) * 100) }
      | _, _ => none

/-- `get_analytics`: the overall `year_range` over the whole filtered
frame (fallback `(1859, 2019)` when it is empty), one record per included
station, and `total_stations = len(stations_analytics)`. -/
def get_analytics (sqrtFn : ℚ → ℚ) (store : List Reading)
    (station_ids : List String) (year_from year_to : Option ℤ) :
    AnalyticsResponse :=
  let df := get_data store station_ids year_from year_to
  let min_year := ((df.map (·.year)).min?).getD 1859
  let max_year := ((df.map (·.year)).max?).getD 2019
  let recs := station_ids.filterMap (analyticsRecord sqrtFn df)
  { stations := recs
    year_range := (min_year, max_year)
    total_stations := recs.length }

end ClimateViz

namespace ClimateViz

/-! ## Spec-side statistical definitions and concrete fixtures -/

/-- Population variance (divide by N, not N−1) of a list of values: the
square of the population standard deviation the spec names; also the
`variance` computed inline by `compute_annual_std`.  A value `s` is the
population standard deviation of `vs` iff `0 ≤ s` and
`s ^ 2 = popVariance vs`. -/
def popVariance (vs : List ℚ) : ℚ :=
  ((vs.map (fun v => (v - vs.sum / (vs.length : ℚ)) ^ 2)).sum) / (vs.length : ℚ)

/-- Sample variance (divide by N−1): the square of the `pandas` default
(`ddof=1`) standard deviation that `groupby(...)["temperature"].agg("std")`
computes for groups of 2 or more non-null values. -/
def sampleVariance (vs : List ℚ) : ℚ :=
  ((vs.map (fun v => (v - vs.sum / (vs.length : ℚ)) ^ 2)).sum) / ((vs.length : ℚ) - 1)

/-- The tail of `c1Store`. -/
def c1Rest : List Reading :=
  [⟨"A", "Station A", 2000, 2, some 9⟩,
   ⟨"A", "Station A", 2000, 3, some 10⟩,
   ⟨"A", "Station A", 2000, 4, some 11⟩,
   ⟨"A", "Station A", 2000, 5, some 11⟩]

/-- Store fixture: one station, one year, five non-null temperatures
`[9, 9, 10, 11, 11]` (mean 10, sum of squared deviations 4, so sample
variance `4/4 = 1` — a perfect square, making `ratSqrt` exact — and
population variance `4/5`). -/
def c1Store : List Reading :=
  ⟨"A", "Station A", 2000, 1, some 9⟩ :: c1Rest

/-- `10.004` as a reduced fraction. -/
def q10004 : ℚ := Rat.mk' 2501 250 (by decide) (by decide)

/-- `10.008` as a reduced fraction. -/
def q10008 : ℚ := Rat.mk' 1251 125 (by decide) (by decide)

/-- `1/62500` (the sample variance of `c2Store`) as a reduced fraction. -/
def qC2Var : ℚ := Rat.mk' 1 62500 (by decide) (by decide)

/-- `0.004` (the sample std of `c2Store`) as a reduced fraction. -/
def qC2Std : ℚ := Rat.mk' 1 250 (by decide) (by decide)

/-- The tail of `c2Store`. -/
def c2Rest : List Reading :=
  [⟨"A", "Station A", 2000, 2, some 10⟩,
   ⟨"A", "Station A", 2000, 3, some q10004⟩,
   ⟨"A", "Station A", 2000, 4, some q10008⟩,
   ⟨"A", "Station A", 2000, 5, some q10008⟩]

/-- Store fixture: one station, one year, five non-null temperatures
`[10, 10, 10.004, 10.008, 10.008]` (mean `10.004`, sample variance
`(1/250)² = 1/62500` — a perfect square, std `0.004`). -/
def c2Store : List Reading :=
  ⟨"A", "Station A", 2000, 1, some 10⟩ :: c2Rest

/-- Wide-table fixture: header lacking the `Year` column. -/
def tblMissingYear : WideTable :=
  ⟨["Station Number", "Jan", "Feb", "Mar", "Apr", "May", "Jun", "Jul",
    "Aug", "Sep", "Oct", "Nov", "Dec"], []⟩

/-- Wide-table fixture: full header, one row whose `Year` cell is not an
integer literal (so `astype(int)` raises `ValueError`). -/
def tblBadYear : WideTable :=
  ⟨["Station Number", "Year", "Jan", "Feb", "Mar", "Apr", "May", "Jun",
    "Jul", "Aug", "Sep", "Oct", "Nov", "Dec"],
   [["7", "abc", "null", "null", "null", "null", "null", "null", "null",
     "null", "null", "null", "null", "null"]]⟩

/-- Wide-table fixture: full header, two rows (stations 9 and 10, in that
order — as strings they sort the other way round) whose temperature cells
are all the `"null"` marker. -/
def tblGood : WideTable :=
  ⟨["Station Number", "Year", "Jan", "Feb", "Mar", "Apr", "May", "Jun",
    "Jul", "Aug", "Sep", "Oct", "Nov", "Dec"],
   [["9", "1950", "null", "null", "null", "null", "null", "null", "null",
     "null", "null", "null", "null", "null"],
    ["10", "1950", "null", "null", "null", "null", "null", "null", "null",
     "null", "null", "null", "null", "null"]]⟩

/-- Store fixture for annual-aggregation edge cases: station `"A"` with a
year (2000) holding exactly one non-null temperature and a year (2001)
holding only a null. -/
def wStore4 : List Reading :=
  [⟨"A", "Station A", 2000, 1, some 15⟩,
   ⟨"A", "Station A", 2000, 2, none⟩,
   ⟨"A", "Station A", 2001, 3, none⟩]

/-- Store fixture for omission edge cases: station `"A"` with one non-null
Reading and station `"B"` with only a null Reading (station `"C"` absent
entirely). -/
def wStore5 : List Reading :=
  [⟨"A", "Station A", 2000, 1, some 10⟩,
   ⟨"B", "Station B", 2000, 1, none⟩]

end ClimateViz

namespace ClimateViz

/-! ## Helper lemmas -/

lemma filterMap_id_map_some (l : List ℚ) : (l.map some).filterMap id = l := by
  induction l with
  | nil => rfl
  | cons a l ih => simp [List.filterMap_cons, ih]

/-! ## C6: standalone utilities -/

/-- **C6** — `compute_annual_std` raises an insufficient-data `ValueError`
(never returns a value, in particular never 0) whenever fewer than 2
non-null values are supplied, and `compute_annual_mean` raises whenever no
non-null value is supplied; above those thresholds both return the
statistic of the non-null values alone (the population variance's square
root for std), so nulls never contribute: each utility agrees with itself
applied to the null-stripped input. -/
theorem utilities_insufficient_data_and_null_robust
    (sqrtFn : ℚ → ℚ) (ts : List (Option ℚ)) :
    ((ts.filterMap id).length < 2 →
      compute_annual_std sqrtFn ts = .error "Need at least 2 values to compute std")
    ∧ ((ts.filterMap id).length = 0 →
      compute_annual_mean ts = .error "No valid temperature values to compute mean")
    ∧ (1 ≤ (ts.filterMap id).length →
      compute_annual_mean ts = .ok ((ts.filterMap id).sum / ((ts.filterMap id).length : ℚ))
      ∧ compute_annual_mean ts = compute_annual_mean ((ts.filterMap id).map some))
    ∧ (2 ≤ (ts.filterMap id).length →
      compute_annual_std sqrtFn ts = .ok (sqrtFn (popVariance (ts.filterMap id)))
      ∧ compute_annual_std sqrtFn ts = compute_annual_std sqrtFn ((ts.filterMap id).map some)) := by
  refine ⟨fun h => ?_, fun h => ?_, fun h => ⟨?_, ?_⟩, fun h => ⟨?_, ?_⟩⟩
  · simp only [compute_annual_std, if_pos h]
  · simp only [compute_annual_mean, List.isEmpty_iff_length_eq_zero, if_pos h]
  · have hne : ¬ (ts.filterMap id).isEmpty := by
      cases hl : ts.filterMap id with
      | nil => rw [hl] at h; simp at h
      | cons a l => simp [hl]
    simp only [compute_annual_mean, if_neg hne]
  · simp only [compute_annual_mean, filterMap_id_map_some]
  · have hlt : ¬ (ts.filterMap id).length < 2 := by omega
    simp only [compute_annual_std, if_neg hlt, popVariance]
  · simp only [compute_annual_std, filterMap_id_map_some]

/-- Witness for C6: at `[10, null, 15, null]` the mean is `12.5`
(the nulls not contributing), and at the single value `[15]` the std
utility signals insufficient data. -/
theorem utilities_insufficient_data_and_null_robust_witness :
    compute_annual_mean [some 10, none, some 15, none] = .ok (25/2)
    ∧ compute_annual_std ratSqrt [some 15] = .error "Need at least 2 values to compute std" := by
  constructor
  · have h := (utilities_insufficient_data_and_null_robust ratSqrt
      [some 10, none, some 15, none]).2.2.1 (by decide)
    rw [h.1]
    have hfm : List.filterMap id [some (10:ℚ), none, some 15, none] = [10, 15] := rfl
    rw [hfm]
    norm_num
  · exact (utilities_insufficient_data_and_null_robust ratSqrt [some 15]).1 (by decide)

end ClimateViz

namespace ClimateViz

/-! ## C3: load error taxonomy -/

/-- **C3** — `load_data` fails with the schema-mismatch `DataLoadError`
naming exactly the absent required/month columns when any is missing; an
explicitly raised `DataLoadError` escaping the body propagates unwrapped;
any other exception escaping the body is wrapped into a `DataLoadError`
whose cause is the original exception. -/
theorem load_data_error_taxonomy (t : WideTable) :
    (¬ ((required_cols ++ month_cols).filter (fun c => ¬ t.columns.contains c)).isEmpty →
      load_data t = .error (.missingColumns
        ((required_cols ++ month_cols).filter (fun c => ¬ t.columns.contains c)) t.columns))
    ∧ (∀ e : DataLoadError, load_body t = .error (.dle e) → load_data t = .error e)
    ∧ (∀ e : PyExc, load_body t = .error (.pyexc e) → load_data t = .error (.parseFailure e)) := by
  refine ⟨fun h => ?_, fun e he => ?_, fun e he => ?_⟩
  · have hb : load_body t = .error (.dle (.missingColumns
        ((required_cols ++ month_cols).filter (fun c => ¬ t.columns.contains c)) t.columns)) := by
      simp only [load_body]
      rw [if_pos h]
    simp only [load_data, hb]
  · simp only [load_data, he]
  · simp only [load_data, he]

/-- Witness for C3: a header without `Year` yields the schema-mismatch
error naming `Year`; a non-integer `Year` cell yields the wrapped parse
failure carrying the original `ValueError` as its cause. -/
theorem load_data_error_taxonomy_witness :
    load_data tblMissingYear = .error (.missingColumns ["Year"] tblMissingYear.columns)
    ∧ load_data tblBadYear = .error (.parseFailure
        (.valueError "invalid literal for int() with base 10: abc")) := by
  constructor
  · have h := (load_data_error_taxonomy tblMissingYear).1 (by decide)
    have hm : (required_cols ++ month_cols).filter
        (fun c => ¬ tblMissingYear.columns.contains c) = ["Year"] := by decide
    rw [hm] at h
    exact h
  · exact (load_data_error_taxonomy tblBadYear).2.2
      (.valueError "invalid literal for int() with base 10: abc") (by decide)

end ClimateViz

namespace ClimateViz

/-! ## C7: sort invariant and query order -/

theorem charsLt_trans : ∀ as bs cs : List Char,
    charsLt as bs = true → charsLt bs cs = true → charsLt as cs = true := by
  intro as
  induction as with
  | nil =>
    intro bs cs h1 h2
    cases bs with
    | nil => exact h2
    | cons b bs =>
      cases cs with
      | nil => simp [charsLt] at h2
      | cons c cs => rfl
  | cons a as ih =>
    intro bs cs h1 h2
    cases bs with
    | nil => simp [charsLt] at h1
    | cons b bs =>
      cases cs with
      | nil => simp [charsLt] at h2
      | cons c cs =>
        simp only [charsLt] at h1 h2 ⊢
        by_cases hab : a.toNat < b.toNat <;> by_cases hbc : b.toNat < c.toNat
        · rw [if_pos (by omega)]
        · rw [if_neg hbc] at h2
          by_cases hcb : c.toNat < b.toNat
          · simp [hcb] at h2
          · rw [if_neg hcb] at h2
            rw [if_pos (by omega)]
        · rw [if_neg hab] at h1
          by_cases hba : b.toNat < a.toNat
          · simp [hba] at h1
          · rw [if_pos (by omega)]
        · rw [if_neg hab] at h1
          rw [if_neg hbc] at h2
          by_cases hba : b.toNat < a.toNat
          · simp [hba] at h1
          · by_cases hcb : c.toNat < b.toNat
            · simp [hcb] at h2
            · rw [if_neg hba] at h1
              rw [if_neg hcb] at h2
              rw [if_neg (by omega), if_neg (by omega)]
              exact ih bs cs h1 h2

theorem charsLt_total : ∀ as bs : List Char,
    charsLt as bs = true ∨ charsLt bs as = true ∨ as = bs := by
  intro as
  induction as with
  | nil =>
    intro bs
    cases bs with
    | nil => right; right; rfl
    | cons b bs => left; rfl
  | cons a as ih =>
    intro bs
    cases bs with
    | nil => right; left; rfl
    | cons b bs =>
      by_cases hab : a.toNat < b.toNat
      · left; simp [charsLt, hab]
      · by_cases hba : b.toNat < a.toNat
        · right; left; simp [charsLt, hba]
        · have heq : a = b := Char.eq_of_val_eq (UInt32.toNat.inj (by
            simp only [Char.toNat] at hab hba; omega))
          subst heq
          rcases ih bs with h | h | h
          · left; simp [charsLt, hab, h]
          · right; left; simp [charsLt, hab, h]
          · right; right; rw [h]

theorem strLt_trans {x y z : String} (h1 : strLt x y = true) (h2 : strLt y z = true) :
    strLt x z = true :=
  charsLt_trans x.data y.data z.data h1 h2

theorem strLt_total (x y : String) :
    strLt x y = true ∨ strLt y x = true ∨ x = y := by
  rcases charsLt_total x.data y.data with h | h | h
  · exact Or.inl h
  · exact Or.inr (Or.inl h)
  · refine Or.inr (Or.inr ?_)
    cases x; cases y; simp_all [String.data]

theorem keyLE_total (a b : Reading) : keyLE a b ∨ keyLE b a := by
  unfold keyLE
  rcases strLt_total a.station_id b.station_id with h | h | h
  · exact Or.inl (Or.inl h)
  · exact Or.inr (Or.inl h)
  · by_cases hy : a.year < b.year
    · exact Or.inl (Or.inr ⟨h, Or.inl hy⟩)
    · by_cases hy2 : b.year < a.year
      · exact Or.inr (Or.inr ⟨h.symm, Or.inl hy2⟩)
      · by_cases hm : a.month ≤ b.month
        · exact Or.inl (Or.inr ⟨h, Or.inr ⟨by omega, hm⟩⟩)
        · exact Or.inr (Or.inr ⟨h.symm, Or.inr ⟨by omega, by omega⟩⟩)

theorem keyLE_trans (a b c : Reading) (h1 : keyLE a b) (h2 : keyLE b c) : keyLE a c := by
  unfold keyLE at h1 h2 ⊢
  rcases h1 with h1 | ⟨he1, h1⟩
  · rcases h2 with h2 | ⟨he2, _⟩
    · exact Or.inl (strLt_trans h1 h2)
    · exact Or.inl (he2 ▸ h1)
  · rcases h2 with h2 | ⟨he2, h2⟩
    · exact Or.inl (he1 ▸ h2)
    · exact Or.inr ⟨he1.trans he2, by omega⟩

theorem load_body_ok_sorted {t : WideTable} {rs : List Reading}
    (h : load_body t = .ok rs) : rs.Sorted keyLE := by
  simp only [load_body] at h
  split at h
  · exact absurd h (by simp)
  · split at h
    · exact absurd h (by simp)
    · injection h with h
      subst h
      exact @List.sorted_insertionSort Reading keyLE _ ⟨keyLE_total⟩
        ⟨keyLE_trans⟩ _

theorem load_data_ok_sorted {t : WideTable} {rs : List Reading}
    (h : load_data t = .ok rs) : rs.Sorted keyLE := by
  unfold load_data at h
  split at h
  · next heq => injection h with h; subst h; exact load_body_ok_sorted heq
  · exact absurd h (by simp)
  · exact absurd h (by simp)

theorem filterStations_sublist (ids : List String) (df : List Reading) :
    (filterStations ids df).Sublist df := by
  unfold filterStations
  split
  · exact List.Sublist.refl _
  · exact List.filter_sublist _

theorem filterYearFrom_sublist (yf : Option ℤ) (df : List Reading) :
    (filterYearFrom yf df).Sublist df := by
  unfold filterYearFrom
  split
  · exact List.Sublist.refl _
  · split
    · exact List.Sublist.refl _
    · exact List.filter_sublist _

theorem filterYearTo_sublist (yt : Option ℤ) (df : List Reading) :
    (filterYearTo yt df).Sublist df := by
  unfold filterYearTo
  split
  · exact List.Sublist.refl _
  · split
    · exact List.Sublist.refl _
    · exact List.filter_sublist _

theorem get_data_sublist (store : List Reading) (ids : List String)
    (yf yt : Option ℤ) : (get_data store ids yf yt).Sublist store :=
  ((filterYearTo_sublist _ _).trans (filterYearFrom_sublist _ _)).trans
    (filterStations_sublist _ _)

/-- **C7** — after every successful `load_data` the stored Reading set is
non-decreasing in `(station_id, year, month)` lexicographic order with the
station id compared as a string, and every subsequent `get_data` query
returns a sublist of the store (hence in the stored order, itself still
sorted); being pure, no read perturbs the store. -/
theorem load_sorted_query_order (t : WideTable) (rs : List Reading)
    (h : load_data t = .ok rs) :
    rs.Sorted keyLE
    ∧ ∀ (ids : List String) (yf yt : Option ℤ),
        (get_data rs ids yf yt).Sublist rs
        ∧ (get_data rs ids yf yt).Sorted keyLE := by
  refine ⟨load_data_ok_sorted h, fun ids yf yt => ⟨get_data_sublist rs ids yf yt, ?_⟩⟩
  exact (load_data_ok_sorted h).sublist (get_data_sublist rs ids yf yt)

/-- The Reading set `load_data` produces from `tblGood`: station `"10"`
sorts before station `"9"` in string order. -/
def goodRs : List Reading :=
  [⟨"10", "Station 10", 1950, 1, none⟩,
   ⟨"10", "Station 10", 1950, 2, none⟩,
   ⟨"10", "Station 10", 1950, 3, none⟩,
   ⟨"10", "Station 10", 1950, 4, none⟩,
   ⟨"10", "Station 10", 1950, 5, none⟩,
   ⟨"10", "Station 10", 1950, 6, none⟩,
   ⟨"10", "Station 10", 1950, 7, none⟩,
   ⟨"10", "Station 10", 1950, 8, none⟩,
   ⟨"10", "Station 10", 1950, 9, none⟩,
   ⟨"10", "Station 10", 1950, 10, none⟩,
   ⟨"10", "Station 10", 1950, 11, none⟩,
   ⟨"10", "Station 10", 1950, 12, none⟩,
   ⟨"9", "Station 9", 1950, 1, none⟩,
   ⟨"9", "Station 9", 1950, 2, none⟩,
   ⟨"9", "Station 9", 1950, 3, none⟩,
   ⟨"9", "Station 9", 1950, 4, none⟩,
   ⟨"9", "Station 9", 1950, 5, none⟩,
   ⟨"9", "Station 9", 1950, 6, none⟩,
   ⟨"9", "Station 9", 1950, 7, none⟩,
   ⟨"9", "Station 9", 1950, 8, none⟩,
   ⟨"9", "Station 9", 1950, 9, none⟩,
   ⟨"9", "Station 9", 1950, 10, none⟩,
   ⟨"9", "Station 9", 1950, 11, none⟩,
   ⟨"9", "Station 9", 1950, 12, none⟩]

/-- Witness for C7: the concrete load of `tblGood` succeeds, its store is
sorted (station `"10"` before `"9"`, string order), and a concrete query
is a sublist of the store. -/
theorem load_sorted_query_order_witness :
    goodRs.Sorted keyLE ∧ (get_data goodRs ["9"] (some 1950) none).Sublist goodRs := by
  have h := load_sorted_query_order tblGood goodRs (by decide)
  exact ⟨h.1, (h.2 ["9"] (some 1950) none).1⟩

end ClimateViz

namespace ClimateViz

/-! ## C9: duplicate requested ids in the monthly projection -/

theorem monthlyRecord_station_id {df : List Reading} {i : String}
    {rec : StationMonthlyData} (h : monthlyRecord df i = some rec) :
    rec.station_id = i := by
  unfold monthlyRecord at h
  split at h
  · exact absurd h (by simp)
  · injection h with h
    subst h
    rfl

theorem filterMap_monthlyRecord_count (df : List Reading) (ids : List String)
    (s : String) (rec : StationMonthlyData) (h : monthlyRecord df s = some rec) :
    (ids.filterMap (monthlyRecord df)).count rec = ids.count s := by
  induction ids with
  | nil => simp
  | cons i ids ih =>
    rw [List.filterMap_cons]
    cases hmi : monthlyRecord df i with
    | none =>
      have his : i ≠ s := by
        rintro rfl
        rw [h] at hmi
        exact Option.noConfusion hmi
      rw [List.count_cons]
      simp [his, Ne.symm his, ih]
    | some r =>
      by_cases his : i = s
      · subst his
        rw [h] at hmi
        injection hmi with hmi
        subst hmi
        simp [List.count_cons, ih]
      · have hr : r ≠ rec := by
          intro hc
          subst hc
          exact his ((monthlyRecord_station_id hmi).symm.trans
            (monthlyRecord_station_id h))
        rw [List.count_cons, List.count_cons]
        simp [his, Ne.symm his, hr, Ne.symm hr, ih]

theorem filterMap_monthlyRecord_points (df : List Reading) (ids : List String) :
    ((ids.filterMap (monthlyRecord df)).map (·.data.length)).sum =
      (ids.map (fun i => ((monthlyRecord df i).map (·.data.length)).getD 0)).sum := by
  induction ids with
  | nil => rfl
  | cons i ids ih =>
    rw [List.filterMap_cons]
    cases hmi : monthlyRecord df i with
    | none => simpa [hmi] using ih
    | some r => simp [hmi, ih]

/-- **C9** — `get_monthly_data` does not deduplicate requested ids: a
station id occurring k times in the request (and having matching data)
contributes k identical records to the output, and `total_points` sums the
per-occurrence point counts, counting that station's points k times. -/
theorem monthly_duplicate_ids (store : List Reading) (station_ids : List String)
    (yf yt : Option ℤ) (s : String) (rec : StationMonthlyData)
    (hrec : monthlyRecord (get_data store station_ids yf yt) s = some rec) :
    ((get_monthly_data store station_ids yf yt).stations.count rec
        = station_ids.count s)
    ∧ (get_monthly_data store station_ids yf yt).total_points =
        (station_ids.map (fun i =>
          ((monthlyRecord (get_data store station_ids yf yt) i).map
            (·.data.length)).getD 0)).sum := by
  constructor
  · exact filterMap_monthlyRecord_count _ station_ids s rec hrec
  · exact filterMap_monthlyRecord_points _ station_ids

/-- Witness for C9: requesting `["A", "A"]` over a store where station
`"A"` has one Reading yields two identical records and `total_points = 2`. -/
theorem monthly_duplicate_ids_witness :
    ((get_monthly_data wStore5 ["A", "A"] none none).stations.count
        ⟨"A", "Station A", [⟨2000, 1, some 10⟩]⟩ = 2)
    ∧ (get_monthly_data wStore5 ["A", "A"] none none).total_points = 2 := by
  have h := monthly_duplicate_ids wStore5 ["A", "A"] none none "A"
    ⟨"A", "Station A", [⟨2000, 1, some 10⟩]⟩ (by decide)
  refine ⟨?_, ?_⟩
  · rw [h.1]
    decide
  · rw [h.2]
    decide

end ClimateViz

namespace ClimateViz

/-! ## Annual aggregator: structural lemmas -/

theorem annualPointForYear_eq {f : ℚ → ℚ} {g : List Reading} {y : ℤ}
    {pt : AnnualDataPoint} (h : annualPointForYear f g y = some pt) :
    ∃ m, aggMean (nonNullTemps (g.filter (fun r => r.year == y))) = some m ∧
      pt = { year := y
             mean := round2 m
             std := round2 ((aggStd f (nonNullTemps (g.filter (fun r => r.year == y)))).getD 0)
             min_temp := match (nonNullTemps (g.filter (fun r => r.year == y))).min? with
               | some v => round2 v | none => m
             max_temp := match (nonNullTemps (g.filter (fun r => r.year == y))).max? with
               | some v => round2 v | none => m
             upper_bound := round2 (m + (aggStd f (nonNullTemps (g.filter (fun r => r.year == y)))).getD 0)
             lower_bound := round2 (m - (aggStd f (nonNullTemps (g.filter (fun r => r.year == y)))).getD 0) } := by
  simp only [annualPointForYear] at h
  split at h
  · exact absurd h (by simp)
  · next m hm =>
    injection h with h
    exact ⟨m, hm, h.symm⟩

theorem annualPointForYear_year {f : ℚ → ℚ} {g : List Reading} {y : ℤ}
    {pt : AnnualDataPoint} (h : annualPointForYear f g y = some pt) :
    pt.year = y := by
  obtain ⟨m, _, hpt⟩ := annualPointForYear_eq h
  rw [hpt]

theorem aggMean_eq_none_iff {vs : List ℚ} : aggMean vs = none ↔ vs = [] := by
  unfold aggMean
  split
  · next h => simpa using h
  · next h => simpa using h

theorem annualPointForYear_isSome_iff {f : ℚ → ℚ} {g : List Reading} {y : ℤ} :
    (annualPointForYear f g y).isSome
      ↔ nonNullTemps (g.filter (fun r => r.year == y)) ≠ [] := by
  constructor
  · intro hs hnil
    have hm : aggMean (nonNullTemps (g.filter (fun r => r.year == y))) = none := by
      rw [hnil]
      exact aggMean_eq_none_iff.mpr rfl
    simp [annualPointForYear, hm] at hs
  · intro hne
    cases hm : aggMean (nonNullTemps (g.filter (fun r => r.year == y))) with
    | none => exact absurd (aggMean_eq_none_iff.mp hm) hne
    | some m => simp [annualPointForYear, hm]

theorem nonNullTemps_ne_nil_iff {g : List Reading} :
    nonNullTemps g ≠ [] ↔ ∃ r ∈ g, r.temperature.isSome := by
  unfold nonNullTemps
  rw [Ne, List.filterMap_eq_nil_iff]
  push_neg
  simp [Option.isSome_iff_ne_none]

theorem mem_yearKeys {g : List Reading} {y : ℤ} :
    y ∈ yearKeys g ↔ ∃ r ∈ g, r.year = y := by
  unfold yearKeys
  rw [(List.perm_insertionSort (· ≤ ·) _).mem_iff, List.mem_dedup, List.mem_map]

theorem yearKeys_sorted_lt (g : List Reading) : (yearKeys g).Sorted (· < ·) := by
  have hs : (yearKeys g).Sorted (· ≤ ·) := List.sorted_insertionSort _ _
  have hn : (yearKeys g).Nodup :=
    ((List.perm_insertionSort (· ≤ ·) _).nodup_iff).mpr (List.nodup_dedup _)
  exact hs.lt_of_le hn

theorem annualRecord_station_id {f : ℚ → ℚ} {df : List Reading} {i : String}
    {rec : StationAnnualData} (h : annualRecord f df i = some rec) :
    rec.station_id = i := by
  unfold annualRecord at h
  split at h
  · exact absurd h (by simp)
  · injection h with h
    subst h
    rfl

theorem annualRecord_data {f : ℚ → ℚ} {df : List Reading} {s : String}
    {rec : StationAnnualData} (h : annualRecord f df s = some rec) :
    df.filter (fun r => r.station_id == s) ≠ [] ∧
      rec.data = (yearKeys (df.filter (fun r => r.station_id == s))).filterMap
        (annualPointForYear f (df.filter (fun r => r.station_id == s))) := by
  unfold annualRecord at h
  split at h
  · exact absurd h (by simp)
  · next r0 rest heq =>
    injection h with h
    subst h
    rw [heq]
    exact ⟨by simp, rfl⟩

theorem annualRecord_of_filter_ne_nil {f : ℚ → ℚ} {df : List Reading} {s : String}
    (h : df.filter (fun r => r.station_id == s) ≠ []) :
    ∃ rec, annualRecord f df s = some rec := by
  unfold annualRecord
  split
  · next heq => exact absurd heq h
  · exact ⟨_, rfl⟩

theorem mem_annual_stations {f : ℚ → ℚ} {store : List Reading}
    {ids : List String} {yf yt : Option ℤ} {rec : StationAnnualData}
    (h : rec ∈ (get_annual_data f store ids yf yt).stations) :
    rec.station_id ∈ ids ∧
      annualRecord f (get_data store ids yf yt) rec.station_id = some rec := by
  obtain ⟨i, hi, hrec⟩ := List.mem_filterMap.mp h
  have hid := annualRecord_station_id hrec
  rw [hid]
  exact ⟨hi, hrec⟩

end ClimateViz

namespace ClimateViz

theorem get_annual_stations_eq (f : ℚ → ℚ) (store : List Reading)
    (ids : List String) (yf yt : Option ℤ) :
    (get_annual_data f store ids yf yt).stations
      = ids.filterMap (annualRecord f (get_data store ids yf yt)) := rfl

theorem get_annual_total_years_eq (f : ℚ → ℚ) (store : List Reading)
    (ids : List String) (yf yt : Option ℤ) :
    (get_annual_data f store ids yf yt).total_years
      = ((ids.filterMap (annualRecord f (get_data store ids yf yt))).map
          (·.data.length)).foldl max 0 := rfl

theorem aggStd_eq_none_of_short {f : ℚ → ℚ} {vs : List ℚ} (h : vs.length < 2) :
    aggStd f vs = none := by
  unfold aggStd
  rw [if_pos h]

theorem round2_zero : round2 0 = 0 := by
  norm_num [round2, roundHalfEven]

/-! ## C4: year emission iff non-null data; singleton year has std 0 -/

/-- **C4** — for every requested station, `get_annual_data` emits a year
entry iff that year has at least one non-null temperature among the
station's filtered Readings (a year with zero non-null temperatures is
absent), and a year with exactly one non-null temperature is emitted with
`std = 0`. -/
theorem annual_year_emission_iff_nonnull (f : ℚ → ℚ) (store : List Reading)
    (ids : List String) (yf yt : Option ℤ) (s : String) :
    (∀ y : ℤ,
      (∃ rec ∈ (get_annual_data f store ids yf yt).stations,
        rec.station_id = s ∧ ∃ pt ∈ rec.data, pt.year = y)
      ↔ (s ∈ ids ∧ ∃ r ∈ (get_data store ids yf yt).filter
            (fun r => r.station_id == s), r.year = y ∧ r.temperature.isSome))
    ∧ (∀ rec ∈ (get_annual_data f store ids yf yt).stations, rec.station_id = s →
        ∀ pt ∈ rec.data,
          (nonNullTemps (((get_data store ids yf yt).filter
              (fun r => r.station_id == s)).filter
            (fun r => r.year == pt.year))).length = 1 →
          pt.std = 0) := by
  constructor
  · intro y
    constructor
    · rintro ⟨rec, hrecmem, hid, pt, hptmem, hpty⟩
      obtain ⟨hmem, hrec⟩ := mem_annual_stations hrecmem
      rw [hid] at hmem hrec
      obtain ⟨-, hdata⟩ := annualRecord_data hrec
      rw [hdata] at hptmem
      obtain ⟨y', hy'k, hpt⟩ := List.mem_filterMap.mp hptmem
      have hyy : y' = y := (annualPointForYear_year hpt).symm.trans hpty
      subst hyy
      have hne : nonNullTemps (((get_data store ids yf yt).filter
          (fun r => r.station_id == s)).filter (fun r => r.year == y')) ≠ [] :=
        annualPointForYear_isSome_iff.mp (by rw [hpt]; rfl)
      obtain ⟨r, hrf, hsome⟩ := nonNullTemps_ne_nil_iff.mp hne
      obtain ⟨hrsdf, hry⟩ := List.mem_filter.mp hrf
      exact ⟨hmem, r, hrsdf, by simpa using hry, hsome⟩
    · rintro ⟨hmem, r, hrsdf, hry, hsome⟩
      have hnil : (get_data store ids yf yt).filter
          (fun r => r.station_id == s) ≠ [] := List.ne_nil_of_mem hrsdf
      obtain ⟨rec, hrec⟩ := annualRecord_of_filter_ne_nil (f := f) hnil
      have hrecmem : rec ∈ (get_annual_data f store ids yf yt).stations := by
        rw [get_annual_stations_eq]
        exact List.mem_filterMap.mpr ⟨s, hmem, hrec⟩
      have hrfil : r ∈ ((get_data store ids yf yt).filter
          (fun r => r.station_id == s)).filter (fun r => r.year == y) :=
        List.mem_filter.mpr ⟨hrsdf, by simpa using hry⟩
      have hne : nonNullTemps (((get_data store ids yf yt).filter
          (fun r => r.station_id == s)).filter (fun r => r.year == y)) ≠ [] :=
        nonNullTemps_ne_nil_iff.mpr ⟨r, hrfil, hsome⟩
      have hs : (annualPointForYear f ((get_data store ids yf yt).filter
          (fun r => r.station_id == s)) y).isSome :=
        annualPointForYear_isSome_iff.mpr hne
      obtain ⟨pt, hpt⟩ := Option.isSome_iff_exists.mp hs
      have hyk : y ∈ yearKeys ((get_data store ids yf yt).filter
          (fun r => r.station_id == s)) := mem_yearKeys.mpr ⟨r, hrsdf, hry⟩
      refine ⟨rec, hrecmem, annualRecord_station_id hrec, pt, ?_, annualPointForYear_year hpt⟩
      rw [(annualRecord_data hrec).2]
      exact List.mem_filterMap.mpr ⟨y, hyk, hpt⟩
  · intro rec hrecmem hid pt hptmem hcount
    obtain ⟨hmem, hrec⟩ := mem_annual_stations hrecmem
    rw [hid] at hrec
    obtain ⟨-, hdata⟩ := annualRecord_data hrec
    rw [hdata] at hptmem
    obtain ⟨y', hy'k, hpt⟩ := List.mem_filterMap.mp hptmem
    obtain ⟨m, hm, hpteq⟩ := annualPointForYear_eq hpt
    have hyy : pt.year = y' := annualPointForYear_year hpt
    rw [hyy] at hcount
    have hstd : aggStd f (nonNullTemps (((get_data store ids yf yt).filter
        (fun r => r.station_id == s)).filter (fun r => r.year == y'))) = none :=
      aggStd_eq_none_of_short (by omega)
    rw [hpteq]
    simp only [hstd, Option.getD_none]
    exact round2_zero



/-! ## C10: ascending year order within each emitted station record -/

theorem map_year_filterMap_sublist (f : ℚ → ℚ) (g : List Reading) (l : List ℤ) :
    ((l.filterMap (annualPointForYear f g)).map (·.year)).Sublist l := by
  induction l with
  | nil => simp
  | cons y l ih =>
    rw [List.filterMap_cons]
    cases hy : annualPointForYear f g y with
    | none => exact ih.cons y
    | some pt =>
      rw [List.map_cons, annualPointForYear_year hy]
      exact ih.cons₂ y

/-- **C10** — in every station record emitted by `get_annual_data` the
years of the data points are strictly increasing, whatever the order of
the readings in the store. -/
theorem annual_years_strictly_increasing (f : ℚ → ℚ) (store : List Reading)
    (ids : List String) (yf yt : Option ℤ) (rec : StationAnnualData)
    (h : rec ∈ (get_annual_data f store ids yf yt).stations) :
    (rec.data.map (·.year)).Sorted (· < ·) := by
  obtain ⟨-, hrec⟩ := mem_annual_stations h
  obtain ⟨-, hdata⟩ := annualRecord_data hrec
  rw [hdata]
  exact List.Pairwise.sublist (map_year_filterMap_sublist _ _ _) (yearKeys_sorted_lt _)



/-! ## C8: total_years is the max per-station year count -/

theorem foldl_max_eq (l : List ℕ) (a : ℕ) : l.foldl max a = max a (l.foldl max 0) := by
  induction l generalizing a with
  | nil => simp
  | cons x l ih =>
    rw [List.foldl_cons, List.foldl_cons, ih (max a x), ih (max 0 x)]
    omega

theorem foldl_max_filterMap_annual (f : ℚ → ℚ) (df : List Reading)
    (ids : List String) :
    ((ids.filterMap (annualRecord f df)).map (·.data.length)).foldl max 0 =
      (ids.map (fun s => ((annualRecord f df s).map (·.data.length)).getD 0)).foldl max 0 := by
  induction ids with
  | nil => rfl
  | cons i ids ih =>
    rw [List.filterMap_cons, List.map_cons]
    cases hmi : annualRecord f df i with
    | none =>
      simpa using ih
    | some r =>
      rw [List.map_cons, List.foldl_cons, List.foldl_cons]
      rw [show (Option.map (fun x => x.data.length) (some r)).getD 0
            = r.data.length from rfl]
      rw [foldl_max_eq _ (max 0 r.data.length),
        foldl_max_eq _ (max 0 r.data.length), ih]

/-- **C8** — `get_annual_data` reports `total_years` as the maximum, over
the requested stations, of the number of year entries emitted for that
single station (a skipped station counting 0). -/
theorem annual_total_years_max (f : ℚ → ℚ) (store : List Reading)
    (ids : List String) (yf yt : Option ℤ) :
    (get_annual_data f store ids yf yt).total_years =
      (ids.map (fun s => ((annualRecord f (get_data store ids yf yt) s).map
        (·.data.length)).getD 0)).foldl max 0 := by
  rw [get_annual_total_years_eq]
  exact foldl_max_filterMap_annual f _ ids

end ClimateViz

namespace ClimateViz

/-! ## C1 / C2: the std kind and the bound-rounding order of the annual
aggregator, settled by exact evaluation at perfect-square inputs -/

theorem annualRecord_eq_of_filter {f : ℚ → ℚ} {df : List Reading} {s : String}
    {r0 : Reading} {rest : List Reading}
    (h : df.filter (fun r => r.station_id == s) = r0 :: rest) :
    annualRecord f df s = some ⟨s, r0.station_name,
      (yearKeys (r0 :: rest)).filterMap (annualPointForYear f (r0 :: rest))⟩ := by
  unfold annualRecord
  rw [h]

theorem c1_eval : get_annual_data ratSqrt c1Store ["A"] none none =
    ⟨[⟨"A", "Station A", [⟨2000, 10, 1, 9, 11, 11, 9⟩]⟩], 1⟩ := by
  have hdf : get_data c1Store ["A"] none none = c1Store := by decide
  have hfil : c1Store.filter (fun r => r.station_id == "A")
      = ⟨"A", "Station A", 2000, 1, some 9⟩ :: c1Rest := by decide
  have hykc : yearKeys c1Store = [2000] := by decide
  have hpt : annualPointForYear ratSqrt c1Store 2000
      = some ⟨2000, 10, 1, 9, 11, 11, 9⟩ := by
    have hvs : nonNullTemps (c1Store.filter (fun r => r.year == 2000))
        = [9, 9, 10, 11, 11] := by decide
    have hmean : aggMean [(9:ℚ), 9, 10, 11, 11] = some 10 := by
      norm_num [aggMean, List.sum_cons]
    have hstd : aggStd ratSqrt [(9:ℚ), 9, 10, 11, 11] = some 1 := by
      norm_num [aggStd, ratSqrt, List.sum_cons]
    simp only [annualPointForYear, hvs, hmean, hstd]
    norm_num [round2, roundHalfEven, List.min?, List.max?]
  have hrec : annualRecord ratSqrt c1Store "A"
      = some ⟨"A", "Station A", [⟨2000, 10, 1, 9, 11, 11, 9⟩]⟩ := by
    rw [annualRecord_eq_of_filter hfil]
    have hfold : (⟨"A", "Station A", 2000, 1, some 9⟩ : Reading) :: c1Rest
        = c1Store := rfl
    rw [hfold, hykc, List.filterMap_cons, List.filterMap_nil, hpt]
  simp only [get_annual_data, hdf, List.filterMap_cons, List.filterMap_nil, hrec]
  rfl

/-- **C1** — evaluation at the failing input: for station `"A"`, year 2000
with temperatures `[9, 9, 10, 11, 11]`, `get_annual_data` reports
`std = 1` — exactly the *sample* standard deviation
(`√(sampleVariance) = √1`, `ddof = 1`, the `pandas` `agg("std")` default).
The population standard deviation `s` the claim (and the repository's own
`compute_annual_std` utility and its tests) prescribe satisfies `0 ≤ s`
and `s² = popVariance = 4/5`; since `1² ≠ 4/5`, the reported value is not
the population standard deviation. -/
theorem annual_std_population_failing_input :
    get_annual_data ratSqrt c1Store ["A"] none none =
      ⟨[⟨"A", "Station A", [⟨2000, 10, 1, 9, 11, 11, 9⟩]⟩], 1⟩
    ∧ sampleVariance [9, 9, 10, 11, 11] = 1
    ∧ popVariance [9, 9, 10, 11, 11] = 4/5
    ∧ ¬ ((1 : ℚ) ^ 2 = 4/5) := by
  refine ⟨c1_eval, ?_, ?_, by norm_num⟩
  · norm_num [sampleVariance, List.sum_cons]
  · norm_num [popVariance, List.sum_cons]

theorem c2_q4 : q10004 = 2501/250 := by
  rw [q10004, Rat.mk'_eq_divInt, Rat.divInt_eq_div]
  norm_num

theorem c2_q8 : q10008 = 1251/125 := by
  rw [q10008, Rat.mk'_eq_divInt, Rat.divInt_eq_div]
  norm_num

theorem c2_stdq : qC2Std = 1/250 := by
  rw [qC2Std, Rat.mk'_eq_divInt, Rat.divInt_eq_div]
  norm_num

theorem c2_sq : ratSqrt qC2Var = qC2Std := by
  have h1 : qC2Var.num = 1 := rfl
  have h2 : qC2Var.den = 62500 := rfl
  have h3 : Nat.sqrt 62500 = 250 := by
    rw [show (62500 : ℕ) = 250 ^ 2 by norm_num]
    exact Nat.sqrt_eq' 250
  rw [ratSqrt, h1, h2, h3, c2_stdq]
  norm_num

theorem c2_vs : nonNullTemps (((get_data c2Store ["A"] none none).filter
    (fun r => r.station_id == "A")).filter (fun r => r.year == (2000:ℤ)))
    = [10, 10, q10004, q10008, q10008] := by decide

theorem c2_mean : aggMean [10, 10, q10004, q10008, q10008] = some q10004 := by
  rw [c2_q4, c2_q8]
  norm_num [aggMean, List.sum_cons]

theorem c2_aggstd : aggStd ratSqrt [10, 10, q10004, q10008, q10008]
    = some qC2Std := by
  have hvar : qC2Var = 1/62500 := by
    rw [qC2Var, Rat.mk'_eq_divInt, Rat.divInt_eq_div]
    norm_num
  rw [← c2_sq, c2_q4, c2_q8]
  norm_num [aggStd, List.sum_cons]
  rw [show ((1:ℚ)/62500) = qC2Var from by rw [hvar]]

theorem c2_eval : get_annual_data ratSqrt c2Store ["A"] none none =
    ⟨[⟨"A", "Station A", [⟨2000, 10, 0, 10, 1001/100, 1001/100, 10⟩]⟩], 1⟩ := by
  have hdf : get_data c2Store ["A"] none none = c2Store := by decide
  have hfil : c2Store.filter (fun r => r.station_id == "A")
      = ⟨"A", "Station A", 2000, 1, some 10⟩ :: c2Rest := by decide
  have hykc : yearKeys c2Store = [2000] := by decide
  have hpt : annualPointForYear ratSqrt c2Store 2000
      = some ⟨2000, 10, 0, 10, 1001/100, 1001/100, 10⟩ := by
    have hvs : nonNullTemps (c2Store.filter (fun r => r.year == 2000))
        = [10, 10, q10004, q10008, q10008] := by decide
    simp only [annualPointForYear, hvs, c2_mean, c2_aggstd]
    rw [c2_q4, c2_q8, c2_stdq]
    norm_num [round2, roundHalfEven, List.min?, List.max?]
  have hrec : annualRecord ratSqrt c2Store "A"
      = some ⟨"A", "Station A", [⟨2000, 10, 0, 10, 1001/100, 1001/100, 10⟩]⟩ := by
    rw [annualRecord_eq_of_filter hfil]
    have hfold : (⟨"A", "Station A", 2000, 1, some 10⟩ : Reading) :: c2Rest
        = c2Store := rfl
    rw [hfold, hykc, List.filterMap_cons, List.filterMap_nil, hpt]
  simp only [get_annual_data, hdf, List.filterMap_cons, List.filterMap_nil, hrec]
  rfl

/-- **C2 (counterexample)** — at station `"A"`, year 2000, temperatures
`[10, 10, 10.004, 10.008, 10.008]` the emitted point has rounded
`mean = 10`, rounded `std = 0`, yet `upper_bound = 10.01`: the claimed
formula `round(round(mean,2) + round(std,2), 2) = round2 (10 + 0) = 10`
disagrees, so the bounds are not computed from the already-rounded mean
and std. -/
theorem annual_bounds_rounding_counterexample :
    get_annual_data ratSqrt c2Store ["A"] none none =
      ⟨[⟨"A", "Station A", [⟨2000, 10, 0, 10, 1001/100, 1001/100, 10⟩]⟩], 1⟩
    ∧ round2 ((10:ℚ) + 0) ≠ (1001/100 : ℚ) := by
  refine ⟨c2_eval, ?_⟩
  norm_num [round2, roundHalfEven]

/-- **C2 (as amended)** — every annual data point's bounds are computed
from the *unrounded* mean and std and rounded once:
`upper_bound = round2 (mean + std)` and `lower_bound = round2 (mean − std)`
where `mean`/`std` are the year's unrounded aggregate values (the emitted
`mean`/`std` fields being their rounded forms). -/
theorem annual_bounds_from_unrounded (f : ℚ → ℚ) (store : List Reading)
    (ids : List String) (yf yt : Option ℤ) (rec : StationAnnualData)
    (pt : AnnualDataPoint)
    (hrec : rec ∈ (get_annual_data f store ids yf yt).stations)
    (hpt : pt ∈ rec.data) :
    ∃ m, aggMean (nonNullTemps (((get_data store ids yf yt).filter
        (fun r => r.station_id == rec.station_id)).filter
        (fun r => r.year == pt.year))) = some m
      ∧ pt.mean = round2 m
      ∧ pt.std = round2 ((aggStd f (nonNullTemps (((get_data store ids yf yt).filter
          (fun r => r.station_id == rec.station_id)).filter
          (fun r => r.year == pt.year)))).getD 0)
      ∧ pt.upper_bound = round2 (m + (aggStd f (nonNullTemps (((get_data store ids yf yt).filter
          (fun r => r.station_id == rec.station_id)).filter
          (fun r => r.year == pt.year)))).getD 0)
      ∧ pt.lower_bound = round2 (m - (aggStd f (nonNullTemps (((get_data store ids yf yt).filter
          (fun r => r.station_id == rec.station_id)).filter
          (fun r => r.year == pt.year)))).getD 0) := by
  obtain ⟨-, hrec'⟩ := mem_annual_stations hrec
  obtain ⟨-, hdata⟩ := annualRecord_data hrec'
  rw [hdata] at hpt
  obtain ⟨y', hy'k, hpty⟩ := List.mem_filterMap.mp hpt
  obtain ⟨m, hm, hpteq⟩ := annualPointForYear_eq hpty
  have hyy : pt.year = y' := annualPointForYear_year hpty
  rw [hyy]
  refine ⟨m, hm, ?_, ?_, ?_, ?_⟩ <;> rw [hpteq]

/-- Witness for the amended C2: the concrete emitted point of `c2Store`
(`mean = 10`, `std = 0`, `upper_bound = 10.01`) satisfies the
unrounded-then-round bound equations, with unrounded mean `10.004` and
unrounded std `0.004`. -/
theorem annual_bounds_from_unrounded_witness :
    (10:ℚ) = round2 q10004
    ∧ (0:ℚ) = round2 qC2Std
    ∧ (1001/100:ℚ) = round2 (q10004 + qC2Std)
    ∧ (10:ℚ) = round2 (q10004 - qC2Std) := by
  have hrec : (⟨"A", "Station A", [⟨2000, 10, 0, 10, 1001/100, 1001/100, 10⟩]⟩ :
      StationAnnualData) ∈ (get_annual_data ratSqrt c2Store ["A"] none none).stations := by
    rw [c2_eval]
    exact List.mem_singleton.mpr rfl
  have hpt : (⟨2000, 10, 0, 10, 1001/100, 1001/100, 10⟩ : AnnualDataPoint) ∈
      (⟨"A", "Station A", [⟨2000, 10, 0, 10, 1001/100, 1001/100, 10⟩]⟩ :
        StationAnnualData).data := List.mem_singleton.mpr rfl
  obtain ⟨m, hm, h1, h2, h3, h4⟩ :=
    annual_bounds_from_unrounded ratSqrt c2Store ["A"] none none _ _ hrec hpt
  rw [c2_vs] at hm h2 h3 h4
  rw [c2_mean] at hm
  injection hm with hm
  subst hm
  rw [c2_aggstd] at h2 h3 h4
  exact ⟨h1, by simpa using h2, by simpa using h3, by simpa using h4⟩

end ClimateViz

namespace ClimateViz

/-! ## C5: omission of empty stations and total_stations -/

theorem get_analytics_stations_eq (f : ℚ → ℚ) (store : List Reading)
    (ids : List String) (yf yt : Option ℤ) :
    (get_analytics f store ids yf yt).stations
      = ids.filterMap (analyticsRecord f (get_data store ids yf yt)) := rfl

theorem get_analytics_total_eq (f : ℚ → ℚ) (store : List Reading)
    (ids : List String) (yf yt : Option ℤ) :
    (get_analytics f store ids yf yt).total_stations
      = (ids.filterMap (analyticsRecord f (get_data store ids yf yt))).length := rfl

theorem monthlyRecord_eq_none {df : List Reading} {s : String}
    (h : df.filter (fun r => r.station_id == s) = []) :
    monthlyRecord df s = none := by
  unfold monthlyRecord
  rw [h]

theorem analyticsRecord_eq_none {f : ℚ → ℚ} {df : List Reading} {s : String}
    (h : nonNullTemps (df.filter (fun r => r.station_id == s)) = []) :
    analyticsRecord f df s = none := by
  unfold analyticsRecord
  split
  · rfl
  · next r0 rest heq =>
    rw [heq] at h
    simp [h]

theorem analyticsRecord_station_id {f : ℚ → ℚ} {df : List Reading} {i : String}
    {rec : StationAnalytics} (h : analyticsRecord f df i = some rec) :
    rec.station_id = i := by
  simp only [analyticsRecord] at h
  split at h
  · exact absurd h (by simp)
  · split at h
    · exact absurd h (by simp)
    · split at h
      · injection h with h
        subst h
        rfl
      · exact absurd h (by simp)

/-- **C5** — a requested station with zero matching Readings does not
appear in `get_monthly_data`'s result; a requested station with zero
non-null Readings in range (in particular zero matching Readings) does
not appear in `get_analytics`' result; both are total functions, so no
error arises; and `total_stations` equals the number of station records
actually included, which is at most (and can be less than) the number
requested. -/
theorem analytics_omission_and_total_stations (f : ℚ → ℚ)
    (store : List Reading) (ids : List String) (yf yt : Option ℤ) (s : String) :
    ((get_data store ids yf yt).filter (fun r => r.station_id == s) = [] →
      ∀ rec ∈ (get_monthly_data store ids yf yt).stations, rec.station_id ≠ s)
    ∧ (nonNullTemps ((get_data store ids yf yt).filter
        (fun r => r.station_id == s)) = [] →
      ∀ rec ∈ (get_analytics f store ids yf yt).stations, rec.station_id ≠ s)
    ∧ (get_analytics f store ids yf yt).total_stations
        = (get_analytics f store ids yf yt).stations.length
    ∧ (get_analytics f store ids yf yt).total_stations ≤ ids.length := by
  refine ⟨fun h rec hrec => ?_, fun h rec hrec => ?_, rfl, ?_⟩
  · obtain ⟨i, hi, hreci⟩ := List.mem_filterMap.mp hrec
    intro hcon
    rw [(monthlyRecord_station_id hreci).symm.trans hcon, monthlyRecord_eq_none h]
      at hreci
    exact Option.noConfusion hreci
  · rw [get_analytics_stations_eq] at hrec
    obtain ⟨i, hi, hreci⟩ := List.mem_filterMap.mp hrec
    intro hcon
    rw [(analyticsRecord_station_id hreci).symm.trans hcon,
      analyticsRecord_eq_none h] at hreci
    exact Option.noConfusion hreci
  · rw [get_analytics_total_eq]
    exact List.length_filterMap_le _ _

/-- Witness for C5: over `wStore5` with request `["A", "B", "C"]`, the
absent station `"C"` is omitted from the monthly result, station `"B"`
(present but all-null) is omitted from the analytics result, and
`total_stations ≤ 3`. -/
theorem analytics_omission_and_total_stations_witness :
    ((get_monthly_data wStore5 ["A", "B", "C"] none none).stations.all
      (fun rec => rec.station_id != "C") = true)
    ∧ ((get_analytics ratSqrt wStore5 ["A", "B", "C"] none none).stations.all
      (fun rec => rec.station_id != "B") = true)
    ∧ (get_analytics ratSqrt wStore5 ["A", "B", "C"] none none).total_stations ≤ 3 := by
  have h1 := (analytics_omission_and_total_stations ratSqrt wStore5
    ["A", "B", "C"] none none "C").1 (by decide)
  have h2 := (analytics_omission_and_total_stations ratSqrt wStore5
    ["A", "B", "C"] none none "B").2.1 (by decide)
  have h3 := (analytics_omission_and_total_stations ratSqrt wStore5
    ["A", "B", "C"] none none "B").2.2.2
  refine ⟨List.all_eq_true.mpr ?_, List.all_eq_true.mpr ?_, by simpa using h3⟩
  · intro rec hrec
    simpa using h1 rec hrec
  · intro rec hrec
    simpa using h2 rec hrec

end ClimateViz

namespace ClimateViz

/-! ## Concrete witnesses for C4 and C10 -/

theorem w4_eval : get_annual_data ratSqrt wStore4 ["A"] none none =
    ⟨[⟨"A", "Station A", [⟨2000, 15, 0, 15, 15, 15, 15⟩]⟩], 1⟩ := by
  have hdf : get_data wStore4 ["A"] none none = wStore4 := by decide
  have hfil : wStore4.filter (fun r => r.station_id == "A")
      = ⟨"A", "Station A", 2000, 1, some 15⟩ ::
        [⟨"A", "Station A", 2000, 2, none⟩,
         ⟨"A", "Station A", 2001, 3, none⟩] := by decide
  have hykc : yearKeys wStore4 = [2000, 2001] := by decide
  have hpt0 : annualPointForYear ratSqrt wStore4 2000
      = some ⟨2000, 15, 0, 15, 15, 15, 15⟩ := by
    have hvs : nonNullTemps (wStore4.filter (fun r => r.year == 2000))
        = [15] := by decide
    have hmean : aggMean [(15:ℚ)] = some 15 := by
      norm_num [aggMean, List.sum_cons]
    have hstd : aggStd ratSqrt [(15:ℚ)] = none :=
      aggStd_eq_none_of_short (by norm_num)
    simp only [annualPointForYear, hvs, hmean, hstd]
    norm_num [round2, roundHalfEven, List.min?, List.max?]
  have hpt1 : annualPointForYear ratSqrt wStore4 2001 = none := by
    have hvs : nonNullTemps (wStore4.filter (fun r => r.year == 2001))
        = [] := by decide
    simp only [annualPointForYear, hvs]
    rfl
  have hrec : annualRecord ratSqrt wStore4 "A"
      = some ⟨"A", "Station A", [⟨2000, 15, 0, 15, 15, 15, 15⟩]⟩ := by
    rw [annualRecord_eq_of_filter hfil]
    have hfold : (⟨"A", "Station A", 2000, 1, some 15⟩ : Reading) ::
        [⟨"A", "Station A", 2000, 2, none⟩,
         ⟨"A", "Station A", 2001, 3, none⟩] = wStore4 := rfl
    rw [hfold, hykc, List.filterMap_cons, List.filterMap_cons,
      List.filterMap_nil, hpt0, hpt1]
  simp only [get_annual_data, hdf, List.filterMap_cons, List.filterMap_nil, hrec]
  rfl

/-- Witness for C4: over `wStore4` the only emitted record for station
`"A"` holds exactly the year-2000 entry (the all-null year 2001 is
dropped), and that singleton-non-null year is emitted with `std = 0` by
the claim's theorem. -/
theorem annual_year_emission_iff_nonnull_witness :
    (get_annual_data ratSqrt wStore4 ["A"] none none).stations
      = [⟨"A", "Station A", [⟨2000, 15, 0, 15, 15, 15, 15⟩]⟩]
    ∧ (⟨2000, 15, 0, 15, 15, 15, 15⟩ : AnnualDataPoint).std = 0 := by
  have hst : (get_annual_data ratSqrt wStore4 ["A"] none none).stations
      = [⟨"A", "Station A", [⟨2000, 15, 0, 15, 15, 15, 15⟩]⟩] :=
    congrArg AnnualDataResponse.stations w4_eval
  refine ⟨hst, ?_⟩
  have h := annual_year_emission_iff_nonnull ratSqrt wStore4 ["A"] none none "A"
  refine h.2 ⟨"A", "Station A", [⟨2000, 15, 0, 15, 15, 15, 15⟩]⟩ ?_ rfl
    ⟨2000, 15, 0, 15, 15, 15, 15⟩ (List.mem_singleton.mpr rfl) ?_
  · rw [hst]
    exact List.mem_singleton.mpr rfl
  · decide

/-- Witness for C10: the concrete annual record emitted for `c1Store` has
strictly increasing years. -/
theorem annual_years_strictly_increasing_witness :
    (((⟨"A", "Station A", [⟨2000, 10, 1, 9, 11, 11, 9⟩]⟩ :
      StationAnnualData)).data.map (·.year)).Sorted (· < ·) := by
  have hrec : (⟨"A", "Station A", [⟨2000, 10, 1, 9, 11, 11, 9⟩]⟩ :
      StationAnnualData) ∈ (get_annual_data ratSqrt c1Store ["A"] none none).stations := by
    rw [c1_eval]
    exact List.mem_singleton.mpr rfl
  exact annual_years_strictly_increasing ratSqrt c1Store ["A"] none none _ hrec

end ClimateViz
